import Mathlib

set_option autoImplicit false

/-!
Shallow embedding of the libimagequant wasm wrapper (src/lib.rs) for checking
the natural-language specification against the code.  Pure stages of the Rust
functions become Lean functions over `List Nat` byte buffers; fallible code
returns `Except String`.  Machine integers are `Nat` with explicit reduction
modulo 2 ^ 32 where `u32` overflow matters.  Behaviour of the two library
crates the wrapper delegates to (imagequant, png) is not under src/; where a
claim hinges on it, the definition is modelled from the spec and says so in
its doc comment.
-/

deriving instance DecidableEq for Except

/-- Truncation to 32 bits: models Rust `u32` wrapping arithmetic, under which
the expression `width * height * 4` on `u32` values reduces modulo 2 ^ 32. -/
def wrap32 (n : Nat) : Nat := n % 2 ^ 32

/-- A pixel with four 8-bit channels, as built by
`RGBA::new(chunk[0], chunk[1], chunk[2], chunk[3])` in src/lib.rs.  Channels
are byte values; theorems add the bound 255 explicitly where it matters. -/
structure Pixel where
  r : Nat
  g : Nat
  b : Nat
  a : Nat
deriving DecidableEq, Repr

/-- Embedding of `data.chunks_exact(4).map(|chunk| RGBA::new(..))` (src/lib.rs
lines 60-63, 131-134, 179-182): groups a raw byte buffer into pixels, dropping
a trailing incomplete chunk exactly as `chunks_exact` does. -/
def toPixels : List Nat → List Pixel
  | r :: g :: b :: a :: rest => ⟨r, g, b, a⟩ :: toPixels rest
  | _ => []

/-- Error message of the pixel-buffer length checks (src/lib.rs lines 56, 128, 176). -/
def imageDataLenMsg : String := "Image data length doesn't match width * height * 4"

/-- Error message of the index-count checks (src/lib.rs lines 145-148, 193-196);
the numeric interpolation of the Rust `format!` call is abstracted away. -/
def indexLenMsg : String := "Index data length mismatch"

/-- Embedding of the guard `data.len() != (width * height * 4) as usize`
(src/lib.rs lines 55, 127, 175).  Both multiplications are performed on `u32`,
so each wraps modulo 2 ^ 32 before the comparison. -/
def rgbaLenCheck (len w h : Nat) : Bool := len == wrap32 (wrap32 (w * h) * 4)

/-- Embedding of the validation stage of `quantize_image` (src/lib.rs lines
52-57).  The quantization itself is performed by the external imagequant crate
and is abstracted away; only the wrapper's own length check is embedded. -/
def quantize_image (data : List Nat) (w h : Nat) : Except String Unit :=
  if rgbaLenCheck data.length w h then Except.ok () else Except.error imageDataLenMsg

/-- Embedding of the per-index conversion inside `remap_image` (src/lib.rs lines
153-166): an in-range index is expanded to the four channel bytes of its palette
entry; an out-of-range index falls back to opaque black `[0, 0, 0, 255]`. -/
def indexToRgba (palette : List Pixel) (i : Nat) : List Nat :=
  if hlt : i < palette.length then
    [(palette.get ⟨i, hlt⟩).r, (palette.get ⟨i, hlt⟩).g,
     (palette.get ⟨i, hlt⟩).b, (palette.get ⟨i, hlt⟩).a]
  else
    [0, 0, 0, 255]

/-- Embedding of the conversion loop of `remap_image` (src/lib.rs lines 152-166):
builds the output pixel buffer from the index buffer. -/
def indicesToRgba (palette : List Pixel) : List Nat → List Nat
  | [] => []
  | i :: rest => indexToRgba palette i ++ indicesToRgba palette rest

/-- Embedding of `remap_image` (src/lib.rs lines 124-169).  The call
`self.result.remapped(&mut img)` is external imagequant code; its output is
taken as the parameters `palette` and `indices`, and the wrapper's own checks
and conversion around that call are embedded faithfully. -/
def remap_image (palette : List Pixel) (indices : List Nat) (data : List Nat)
    (w h : Nat) : Except String (List Nat) :=
  if rgbaLenCheck data.length w h then
    if indices.length == wrap32 (w * h) then
      Except.ok (indicesToRgba palette indices)
    else
      Except.error indexLenMsg
  else
    Except.error imageDataLenMsg

/-- Modelled from the spec: squared Euclidean distance over the four channels,
the Remapper's nearest-entry metric (spec section 4.4); the concrete channel
weights of the external imagequant crate are not in src/, so the unweighted
distance of the spec's words is used. -/
def distSq (p c : Pixel) : Int :=
  ((p.r : Int) - c.r) ^ 2 + ((p.g : Int) - c.g) ^ 2 +
    ((p.b : Int) - c.b) ^ 2 + ((p.a : Int) - c.a) ^ 2

/-- Modelled from the spec: tail of the nearest-palette-entry search (spec
section 4.4).  `i` is the index of the head of the remaining list, `bestI` and
`bestD` the best index and distance so far; only a strictly smaller distance
replaces the best, so ties are broken by lowest palette index. -/
def nearestFrom (p : Pixel) : List Pixel → Nat → Nat → Int → Nat
  | [], _, bestI, _ => bestI
  | c :: rest, i, bestI, bestD =>
    if distSq p c < bestD then nearestFrom p rest (i + 1) i (distSq p c)
    else nearestFrom p rest (i + 1) bestI bestD

/-- Modelled from the spec: index of the nearest palette entry for one pixel
(spec section 4.4); 0 on an empty palette, a case the callers rule out. -/
def nearestIndex (palette : List Pixel) (p : Pixel) : Nat :=
  match palette with
  | [] => 0
  | c :: rest => nearestFrom p rest 1 0 (distSq p c)

/-- Modelled from the spec: the dithering-level-0 path of the Remapper (spec
section 4.4), a pure per-pixel nearest-entry map with no error carried between
pixels.  This stands in for the external `remapped` call of the imagequant
crate, which is not in src/. -/
def remapIndices (palette : List Pixel) (pixels : List Pixel) : List Nat :=
  pixels.map (nearestIndex palette)

/-- Embedding of `get_palette_indices` (src/lib.rs lines 172-200): the wrapper's
length check, then the remap (modelled from the spec, including its empty-palette
failure, spec section 4.4), then the wrapper's index-count check. -/
def get_palette_indices (palette : List Pixel) (data : List Nat) (w h : Nat) :
    Except String (List Nat) :=
  if rgbaLenCheck data.length w h then
    if palette.isEmpty then
      Except.error "Failed to remap image"
    else
      if (remapIndices palette (toPixels data)).length == wrap32 (w * h) then
        Except.ok (remapIndices palette (toPixels data))
      else
        Except.error indexLenMsg
  else
    Except.error imageDataLenMsg

/-- Embedding of the transparency-table loop of `encode_palette_to_png`
(src/lib.rs lines 298-303): every palette entry with alpha below 255
contributes its alpha, in palette order, regardless of position. -/
def buildTransparency : List Pixel → List Nat
  | [] => []
  | c :: rest =>
    if c.a < 255 then c.a :: buildTransparency rest else buildTransparency rest

/-- Formalisation of the spec's words for the transparency table (spec sections
4.5 and 6), for comparison with `buildTransparency`: the alpha values of the
leading run of non-opaque palette entries, stopping before the first fully
opaque entry. -/
def specTransparency (palette : List Pixel) : List Nat :=
  (palette.takeWhile (fun c => decide (c.a < 255))).map Pixel.a

/-- Embedding of the palette-chunk loop of `encode_palette_to_png` (src/lib.rs
lines 298-299): three bytes R, G, B per palette entry, in order. -/
def paletteToRgb : List Pixel → List Nat
  | [] => []
  | c :: rest => c.r :: c.g :: c.b :: paletteToRgb rest

/-- The five pixel formats of the container format that the wrapper's match
distinguishes (png crate `ColorType`). -/
inductive PngColorType where
  | grayscale
  | rgb
  | indexed
  | grayscaleAlpha
  | rgba
deriving DecidableEq, Repr

/-- Chunk-level model of a container file.  The byte stream produced by the png
crate stores the header fields, palette chunk, transparency chunk and the
(losslessly compressed) sample data; since the compression is lossless, the
bytes are modelled by the chunk contents themselves. -/
structure PngData where
  colorType : PngColorType
  width : Nat
  height : Nat
  data : List Nat
  paletteRgb : List Nat
  trns : List Nat
deriving DecidableEq, Repr

/-- Embedding of `encode_palette_to_png` (src/lib.rs lines 259-318): the index
count check against `(width * height) as usize` (wrapping `u32` product), the
256-entry palette limit, then the indexed-format container write.  The palette
is taken already structured, so the per-entry JS array validation (lines
267-283) cannot fail here.  The png crate's `write_header` rejects a zero
dimension; the compressed write itself is lossless and always succeeds. -/
def encode_palette_to_png (indices : List Nat) (palette : List Pixel)
    (w h : Nat) : Except String PngData :=
  if indices.length ≠ wrap32 (w * h) then
    Except.error "Palette indices length doesn't match width * height"
  else if 256 < palette.length then
    Except.error "Palette too large for PNG (max 256 colors)"
  else if w = 0 ∨ h = 0 then
    Except.error "Failed to write PNG header"
  else
    Except.ok
      { colorType := PngColorType.indexed
        width := w
        height := h
        data := indices
        paletteRgb := paletteToRgb palette
        trns := buildTransparency palette }

/-- Embedding of the truecolor branch of `decode_png_to_rgba` (src/lib.rs lines
223-230): each 3-byte chunk is copied and an alpha byte 255 appended; a
trailing incomplete chunk is dropped as `chunks_exact(3)` does. -/
def rgbToRgbaBytes : List Nat → List Nat
  | r :: g :: b :: rest => r :: g :: b :: 255 :: rgbToRgbaBytes rest
  | _ => []

/-- Embedding of the grayscale-alpha branch of `decode_png_to_rgba` (src/lib.rs
lines 231-239): each 2-byte chunk `[gray, alpha]` becomes
`[gray, gray, gray, alpha]`. -/
def gaToRgbaBytes : List Nat → List Nat
  | g :: a :: rest => g :: g :: g :: a :: gaToRgbaBytes rest
  | _ => []

/-- Embedding of the grayscale branch of `decode_png_to_rgba` (src/lib.rs lines
240-246): each byte `gray` becomes `[gray, gray, gray, 255]`. -/
def grayToRgbaBytes : List Nat → List Nat
  | [] => []
  | g :: rest => g :: g :: g :: 255 :: grayToRgbaBytes rest

/-- Embedding of `decode_png_to_rgba` (src/lib.rs lines 205-256) over the
chunk-level container model: the match on `info.color_type` with its four
conversion branches and the catch-all unsupported-format failure, which the
indexed format falls into. -/
def decode_png_to_rgba (png : PngData) : Except String (List Nat × Nat × Nat) :=
  match png.colorType with
  | PngColorType.rgba => Except.ok (png.data, png.width, png.height)
  | PngColorType.rgb => Except.ok (rgbToRgbaBytes png.data, png.width, png.height)
  | PngColorType.grayscaleAlpha =>
    Except.ok (gaToRgbaBytes png.data, png.width, png.height)
  | PngColorType.grayscale =>
    Except.ok (grayToRgbaBytes png.data, png.width, png.height)
  | PngColorType.indexed => Except.error "Unsupported PNG color type"

/-- Modelled from the spec: the speed validator of the external imagequant
crate, called by `set_speed` (src/lib.rs lines 28-31); speed ranges over
1 to 10 (spec section 3). -/
def set_speed (s : Int) : Except String Unit :=
  if 1 ≤ s ∧ s ≤ 10 then Except.ok () else Except.error "Failed to set speed"

/-- Modelled from the spec: the quality validator of the external imagequant
crate, called by `set_quality` (src/lib.rs lines 34-37); min and target lie in
0 to 100 with min ≤ target (spec section 3); `u8` arguments are never negative. -/
def set_quality (mn tgt : Nat) : Except String Unit :=
  if mn ≤ tgt ∧ tgt ≤ 100 then Except.ok ()
  else Except.error "Failed to set quality"

/-- Modelled from the spec: the palette-size validator of the external
imagequant crate, called by `set_max_colors` (src/lib.rs lines 40-43); max
palette size ranges over 1 to 256 (spec section 3). -/
def set_max_colors (c : Nat) : Except String Unit :=
  if 1 ≤ c ∧ c ≤ 256 then Except.ok ()
  else Except.error "Failed to set max colors"

/-- Modelled from the spec: the posterization validator of the external
imagequant crate, `set_min_posterization`, taking a `u8` and accepting 0 to 4
bits (spec section 3). -/
def set_min_posterization (v : Nat) : Except String Unit :=
  if v ≤ 4 then Except.ok () else Except.error "Failed to set posterization"

/-- Rust's saturating numeric cast `x as u8` on integral values, as performed
by `posterization as u8` in `set_posterization` (src/lib.rs line 47): values
below 0 become 0, values above 255 become 255. -/
def satCastU8 (x : Int) : Nat := (max 0 (min x 255)).toNat

/-- Embedding of `set_posterization` (src/lib.rs lines 46-49): the argument is
cast with Rust `as u8` saturation and only then validated; integral inputs
model the `f64` parameter. -/
def set_posterization (x : Int) : Except String Unit :=
  set_min_posterization (satCastU8 x)

/-- Embedding of `get_quantization_quality` (src/lib.rs lines 113-115): the
internal score (`None` defaulted to 0) divided by 100.  The external
`quantization_quality` returns a score on the 0 to 100 internal scale (spec
sections 2 and 4.3); division is modelled over the rationals. -/
def get_quantization_quality (q : Option Nat) : Rat := (q.getD 0 : Rat) / 100

/-- Fixed-size chunking of a byte buffer into 4-byte groups, dropping a
trailing incomplete group; used to state per-pixel properties of the decoded
RGBA output. -/
def chunks4 : List Nat → List (List Nat)
  | a :: b :: c :: d :: rest => [a, b, c, d] :: chunks4 rest
  | _ => []

/-- Grouping of a byte buffer into consecutive triples, dropping a trailing
incomplete triple; the pixels of a truecolor sample buffer. -/
def triples : List Nat → List (Nat × Nat × Nat)
  | a :: b :: c :: rest => (a, b, c) :: triples rest
  | _ => []

/-- Grouping of a byte buffer into consecutive pairs, dropping a trailing odd
byte; the pixels of a grayscale-alpha sample buffer. -/
def pairs : List Nat → List (Nat × Nat)
  | a :: b :: rest => (a, b) :: pairs rest
  | _ => []

/-- Success predicate on a fallible result, used to state when an operation
accepts its input. -/
def isOkB {ε α : Type} (e : Except ε α) : Bool :=
  match e with
  | Except.ok _ => true
  | Except.error _ => false

/-- Helper: the two length-check expressions of the wrapper agree with the
single wrapped product `width * height * 4 mod 2 ^ 32`. -/
theorem wrap32_mul_four (w h : Nat) :
    wrap32 (wrap32 (w * h) * 4) = wrap32 (w * h * 4) := by
  unfold wrap32
  exact Nat.mod_mul_mod

/-- C1 (counterexample): a remap whose index buffer holds the out-of-range
index 1 against a one-entry palette does not fail; it returns a pixel buffer
in which the default color opaque black has been substituted. -/
theorem c1_counterexample :
    remap_image [⟨1, 2, 3, 4⟩] [1] [9, 9, 9, 9] 1 1 = Except.ok [0, 0, 0, 255] := by
  decide

/-- C1 (amended): whenever the wrapper's two length checks pass, `remap_image`
succeeds and returns the converted buffer regardless of the index values, and
every index at or beyond the palette length is rendered as the substituted
default color `[0, 0, 0, 255]` rather than failing the call. -/
theorem c1_amended (palette : List Pixel) (indices data : List Nat) (w h : Nat)
    (hdata : data.length = wrap32 (wrap32 (w * h) * 4))
    (hidx : indices.length = wrap32 (w * h)) :
    remap_image palette indices data w h = Except.ok (indicesToRgba palette indices) ∧
    ∀ i, palette.length ≤ i → indexToRgba palette i = [0, 0, 0, 255] := by
  constructor
  · simp [remap_image, rgbaLenCheck, hdata, hidx]
  · intro i hi
    unfold indexToRgba
    rw [dif_neg (by omega)]

/-- C1 (witness): the amended theorem at a concrete call with one in-range
index, plus the substituted color at the concrete out-of-range index 5. -/
theorem c1_witness :
    remap_image [⟨1, 2, 3, 4⟩] [0] [9, 9, 9, 9] 1 1 =
      Except.ok (indicesToRgba [⟨1, 2, 3, 4⟩] [0]) ∧
    indexToRgba [⟨1, 2, 3, 4⟩] 5 = [0, 0, 0, 255] :=
  have ht := c1_amended [⟨1, 2, 3, 4⟩] [0] [9, 9, 9, 9] 1 1 (by decide) (by decide)
  ⟨ht.1, ht.2 5 (by decide)⟩

/-- C5 (counterexample): the posterization setter, given the out-of-range
negative value -1, succeeds instead of failing: the Rust `as u8` cast
saturates -1 to 0 before the range validation runs. -/
theorem c5_counterexample : set_posterization (-1) = Except.ok () := by decide

/-- C5 (amended): the speed, quality and max-colors setters accept exactly the
in-range values and fail otherwise, but the posterization setter first
saturates its argument into the byte range and only then validates, so every
negative input is coerced to 0 and accepted rather than rejected. -/
theorem c5_amended :
    (∀ s : Int, set_speed s = Except.ok () ↔ 1 ≤ s ∧ s ≤ 10) ∧
    (∀ mn tgt : Nat, set_quality mn tgt = Except.ok () ↔ mn ≤ tgt ∧ tgt ≤ 100) ∧
    (∀ c : Nat, set_max_colors c = Except.ok () ↔ 1 ≤ c ∧ c ≤ 256) ∧
    (∀ x : Int, set_posterization x = Except.ok () ↔ satCastU8 x ≤ 4) ∧
    (∀ x : Int, x < 0 → set_posterization x = Except.ok ()) := by
  refine ⟨?_, ?_, ?_, ?_, ?_⟩
  · intro s
    unfold set_speed
    split <;> simp_all
  · intro mn tgt
    unfold set_quality
    split <;> simp_all
  · intro c
    unfold set_max_colors
    split <;> simp_all
  · intro x
    unfold set_posterization set_min_posterization
    split <;> simp_all
  · intro x hx
    have h0 : satCastU8 x = 0 := by
      unfold satCastU8
      omega
    unfold set_posterization
    rw [h0]
    rfl

/-- C5 (witness): the amended theorem applied at the concrete negative input -3. -/
theorem c5_witness : set_posterization (-3) = Except.ok () :=
  c5_amended.2.2.2.2 (-3) (by decide)

/-- C10 (confirmed): the buffer-length checks of quantize and remap compare
against `width * height * 4` computed in wrapping 32-bit arithmetic, so for any
dimensions whose true product is at least 2 ^ 32, a buffer of the wrapped
length passes both checks even though its length is not `width * height * 4`. -/
theorem c10_confirmed (w h : Nat) (data : List Nat)
    (hbig : 2 ^ 32 ≤ w * h * 4)
    (hlen : data.length = wrap32 (w * h * 4)) :
    rgbaLenCheck data.length w h = true ∧
    quantize_image data w h = Except.ok () ∧
    (∀ palette indices, remap_image palette indices data w h ≠ Except.error imageDataLenMsg) ∧
    data.length ≠ w * h * 4 := by
  have hc : rgbaLenCheck data.length w h = true := by
    unfold rgbaLenCheck
    rw [hlen, wrap32_mul_four]
    exact beq_self_eq_true _
  refine ⟨hc, ?_, ?_, ?_⟩
  · simp [quantize_image, hc]
  · intro palette indices
    simp only [remap_image, hc, if_true]
    split
    · simp
    · intro hcontra
      have hmsg : indexLenMsg = imageDataLenMsg := by
        injection hcontra
      exact absurd hmsg (by decide)
  · have hsm : data.length < 2 ^ 32 := by
      rw [hlen]
      exact Nat.mod_lt _ (by norm_num)
    omega

/-- C10 (witness): at width = height = 32768 the true byte count is exactly
2 ^ 32, which wraps to 0, so the empty buffer passes both length checks. -/
theorem c10_witness :
    rgbaLenCheck ([] : List Nat).length 32768 32768 = true ∧
    quantize_image [] 32768 32768 = Except.ok () ∧
    remap_image [] [] [] 32768 32768 ≠ Except.error imageDataLenMsg ∧
    ([] : List Nat).length ≠ 32768 * 32768 * 4 :=
  have ht := c10_confirmed 32768 32768 [] (by decide) (by decide)
  ⟨ht.1, ht.2.1, ht.2.2.1 [] [], ht.2.2.2⟩

/-- Helper: the transparency loop keeps exactly the alpha values of the
non-opaque palette entries, in palette order. -/
theorem buildTransparency_filter (palette : List Pixel) :
    buildTransparency palette =
      (palette.filter (fun c => decide (c.a < 255))).map Pixel.a := by
  induction palette with
  | nil => rfl
  | cons c rest ih =>
    simp only [buildTransparency, List.filter_cons]
    by_cases h : c.a < 255 <;> simp [h, ih]

/-- Helper: the transparency table is empty exactly when no palette entry has
alpha below 255. -/
theorem buildTransparency_eq_nil_iff (palette : List Pixel) :
    buildTransparency palette = [] ↔ ∀ c ∈ palette, ¬ c.a < 255 := by
  induction palette with
  | nil => simp [buildTransparency]
  | cons c rest ih =>
    by_cases h : c.a < 255
    · simp [buildTransparency, h, ih]
    · simp [buildTransparency, h, ih]
      intro _
      omega

/-- C2 (counterexample): for the palette whose entry 0 is fully opaque and
whose entry 1 has alpha 128, the non-opaque entry is not at the front, so the
spec's leading-run table is empty and the pattern must be flagged; the encoder
instead succeeds and writes the table [128], silently associating that alpha
with palette entry 0. -/
theorem c2_counterexample :
    (encode_palette_to_png [0] [⟨0, 0, 0, 255⟩, ⟨0, 0, 0, 128⟩] 1 1).map PngData.trns =
      Except.ok [128] ∧
    specTransparency [⟨0, 0, 0, 255⟩, ⟨0, 0, 0, 128⟩] = [] := by
  exact ⟨by decide, by decide⟩

/-- C2 (amended): the transparency table written to the container consists of
the alpha values of all non-opaque palette entries in palette order, regardless
of whether they are contiguous at the front; the chunk is omitted exactly when
every entry is fully opaque; and a palette whose entry 0 has alpha 128 and all
other entries alpha 255 yields the table [128].  Non-contiguous patterns are
not flagged: they are encoded with this (misaligned) table. -/
theorem c2_amended (palette : List Pixel) (hle : ∀ c ∈ palette, c.a ≤ 255) :
    buildTransparency palette =
      (palette.filter (fun c => decide (c.a < 255))).map Pixel.a ∧
    (buildTransparency palette = [] ↔ ∀ c ∈ palette, c.a = 255) ∧
    (∀ c0 rest, Pixel.a c0 = 128 → (∀ c ∈ rest, Pixel.a c = 255) →
      buildTransparency (c0 :: rest) = [128]) := by
  refine ⟨buildTransparency_filter palette, ?_, ?_⟩
  · rw [buildTransparency_eq_nil_iff]
    constructor
    · intro hno c hc
      have h1 := hno c hc
      have h2 := hle c hc
      omega
    · intro hall c hc
      have := hall c hc
      omega
  · intro c0 rest h0 hrest
    have hnil : buildTransparency rest = [] := by
      rw [buildTransparency_eq_nil_iff]
      intro c hc
      have := hrest c hc
      omega
    simp only [buildTransparency]
    rw [h0, if_pos (by norm_num), hnil]

/-- C2 (witness): the amended theorem at the palette with entry 0 of alpha 128
followed by an opaque entry, whose table is [128]. -/
theorem c2_witness :
    buildTransparency [⟨0, 0, 0, 128⟩, ⟨1, 1, 1, 255⟩] =
      (([⟨0, 0, 0, 128⟩, ⟨1, 1, 1, 255⟩] : List Pixel).filter
        (fun c => decide (c.a < 255))).map Pixel.a ∧
    buildTransparency [⟨0, 0, 0, 128⟩, ⟨1, 1, 1, 255⟩] = [128] :=
  have ht := c2_amended [⟨0, 0, 0, 128⟩, ⟨1, 1, 1, 255⟩] (by decide)
  ⟨ht.1, ht.2.2 ⟨0, 0, 0, 128⟩ [⟨1, 1, 1, 255⟩] rfl (by decide)⟩

/-- C3 (counterexample): decoding the container produced by encoding the
single-index image [0] with a one-entry palette does not return the indices;
it fails with the unsupported-format error, because encode writes the indexed
format and decode rejects it. -/
theorem c3_counterexample :
    (encode_palette_to_png [0] [⟨0, 0, 0, 255⟩] 1 1).bind decode_png_to_rgba =
      Except.error "Unsupported PNG color type" := by
  decide

/-- C3 (amended): for every valid input (positive dimensions, matching index
count, palette of at most 256 entries), encode succeeds and produces an
indexed-format container that decode rejects with the unsupported-format
error; no decode(encode(x)) round trip of the indices holds. -/
theorem c3_amended (indices : List Nat) (palette : List Pixel) (w h : Nat)
    (hw : 0 < w) (hh : 0 < h)
    (hlen : indices.length = wrap32 (w * h)) (hpal : palette.length ≤ 256) :
    ∃ png, encode_palette_to_png indices palette w h = Except.ok png ∧
      decode_png_to_rgba png = Except.error "Unsupported PNG color type" := by
  refine ⟨{ colorType := PngColorType.indexed, width := w, height := h,
            data := indices, paletteRgb := paletteToRgb palette,
            trns := buildTransparency palette }, ?_, rfl⟩
  unfold encode_palette_to_png
  rw [if_neg (by omega), if_neg (by omega), if_neg (by omega)]

/-- C3 (witness): the amended theorem at a concrete 2-by-1 image. -/
theorem c3_witness :
    ∃ png, encode_palette_to_png [0, 0] [⟨5, 6, 7, 8⟩] 2 1 = Except.ok png ∧
      decode_png_to_rgba png = Except.error "Unsupported PNG color type" :=
  c3_amended [0, 0] [⟨5, 6, 7, 8⟩] 2 1 (by decide) (by decide) (by decide) (by decide)

/-- C4 (counterexample): the index 5 is out of range for the one-entry
palette, so by the claim encode must fail; the encoder performs no index-range
check and succeeds, emitting the out-of-range index into the container. -/
theorem c4_counterexample :
    encode_palette_to_png [5] [⟨0, 0, 0, 255⟩] 1 1 =
      Except.ok
        { colorType := PngColorType.indexed, width := 1, height := 1,
          data := [5], paletteRgb := [0, 0, 0], trns := [] } := by
  decide

/-- C4 (amended): for positive dimensions, encode succeeds exactly when the
index count equals `width * height` (computed in wrapping 32-bit arithmetic)
and the palette has at most 256 entries; the value of the indices is never
validated, so out-of-range indices are encoded successfully. -/
theorem c4_amended (indices : List Nat) (palette : List Pixel) (w h : Nat)
    (hw : 0 < w) (hh : 0 < h) :
    isOkB (encode_palette_to_png indices palette w h) = true ↔
      (indices.length = wrap32 (w * h) ∧ palette.length ≤ 256) := by
  unfold encode_palette_to_png
  by_cases h1 : indices.length = wrap32 (w * h)
  · by_cases h2 : palette.length ≤ 256
    · rw [if_neg (by omega), if_neg (by omega), if_neg (by omega)]
      simp [isOkB, h1, h2]
    · rw [if_neg (by omega), if_pos (by omega)]
      simp [isOkB, h2]
  · rw [if_pos h1]
    simp [isOkB, h1]

/-- C4 (witness): the amended theorem accepting the concrete call whose only
index, 5, is out of range for the one-entry palette. -/
theorem c4_witness : isOkB (encode_palette_to_png [5] [⟨0, 0, 0, 255⟩] 1 1) = true :=
  (c4_amended [5] [⟨0, 0, 0, 255⟩] 1 1 (by decide) (by decide)).mpr
    ⟨by decide, by decide⟩

/-- Helper: grouping a byte buffer into pixels yields one pixel per four
bytes, with a trailing incomplete chunk dropped. -/
theorem toPixels_length : ∀ l : List Nat, (toPixels l).length = l.length / 4
  | r :: g :: b :: a :: rest => by
    simp only [toPixels, List.length_cons]
    rw [toPixels_length rest]
    omega
  | [] => rfl
  | [_] => by simp [toPixels]
  | [_, _] => by simp [toPixels]
  | [_, _, _] => by simp [toPixels]

/-- Helper: the nearest-entry search never leaves the index range it has
scanned, provided the best index so far is below the next scan position. -/
theorem nearestFrom_lt (p : Pixel) :
    ∀ (l : List Pixel) (i bestI : Nat) (bestD : Int), bestI < i →
      nearestFrom p l i bestI bestD < i + l.length
  | [], i, bestI, bestD, hbest => by
    simpa [nearestFrom] using hbest
  | c :: rest, i, bestI, bestD, hbest => by
    simp only [nearestFrom, List.length_cons]
    split
    · have hrec := nearestFrom_lt p rest (i + 1) i (distSq p c) (by omega)
      omega
    · have hrec := nearestFrom_lt p rest (i + 1) bestI bestD (by omega)
      omega

/-- Helper: on a nonempty palette the nearest index is a valid palette index. -/
theorem nearestIndex_lt (palette : List Pixel) (p : Pixel) (hne : palette ≠ []) :
    nearestIndex palette p < palette.length := by
  match palette with
  | [] => exact absurd rfl hne
  | c :: rest =>
    simp only [nearestIndex, List.length_cons]
    have := nearestFrom_lt p rest 1 0 (distSq p c) (by omega)
    omega

/-- C6 (confirmed): whenever `get_palette_indices` accepts an image (byte
count matching width * height * 4, computed without overflow), the returned
index buffer has length exactly width * height, and every value in it is
strictly below the palette length. -/
theorem c6_confirmed (palette : List Pixel) (data : List Nat) (w h : Nat)
    (idx : List Nat) (hov : w * h * 4 < 2 ^ 32)
    (hok : get_palette_indices palette data w h = Except.ok idx) :
    idx.length = w * h ∧ ∀ v ∈ idx, v < palette.length := by
  unfold get_palette_indices at hok
  split at hok
  · split at hok
    · simp at hok
    · split at hok
      · rename_i hcheck hemp hlen2
        injection hok with hidx
        have hne : palette ≠ [] := by
          intro hcontra
          subst hcontra
          simp at hemp
        have hdl : data.length = w * h * 4 := by
          have h1 : data.length = wrap32 (wrap32 (w * h) * 4) := by
            have hb := hcheck
            unfold rgbaLenCheck at hb
            exact beq_iff_eq.mp hb
          rw [wrap32_mul_four] at h1
          unfold wrap32 at h1
          rw [Nat.mod_eq_of_lt hov] at h1
          exact h1
        have hplen : (toPixels data).length = w * h := by
          rw [toPixels_length, hdl]
          omega
        subst hidx
        constructor
        · simp [remapIndices, hplen]
        · intro v hv
          simp only [remapIndices, List.mem_map] at hv
          obtain ⟨p, _, rfl⟩ := hv
          exact nearestIndex_lt palette p hne
      · simp at hok
  · simp at hok

/-- C6 (witness): the confirmed theorem at a concrete 1-by-1 image and a
one-entry palette, whose accepted remap returns the index buffer [0]. -/
theorem c6_witness :
    ([0] : List Nat).length = 1 * 1 ∧
    ∀ v ∈ ([0] : List Nat), v < ([⟨10, 20, 30, 40⟩] : List Pixel).length :=
  c6_confirmed [⟨10, 20, 30, 40⟩] [1, 2, 3, 4] 1 1 [0] (by decide) (by decide)

/-- Helper: the truecolor conversion appends the alpha byte 255 to every
3-byte pixel. -/
theorem chunks4_rgb : ∀ l : List Nat,
    chunks4 (rgbToRgbaBytes l) = (triples l).map (fun t => [t.1, t.2.1, t.2.2, 255])
  | a :: b :: c :: rest => by
    simp only [rgbToRgbaBytes, triples, chunks4, List.map_cons]
    exact congrArg _ (chunks4_rgb rest)
  | [] => rfl
  | [_] => rfl
  | [_, _] => rfl

/-- Helper: the grayscale-alpha conversion replicates the luminance byte into
R, G and B and copies the alpha byte, for every 2-byte pixel. -/
theorem chunks4_ga : ∀ l : List Nat,
    chunks4 (gaToRgbaBytes l) = (pairs l).map (fun q => [q.1, q.1, q.1, q.2])
  | g :: a :: rest => by
    simp only [gaToRgbaBytes, pairs, chunks4, List.map_cons]
    exact congrArg _ (chunks4_ga rest)
  | [] => rfl
  | [_] => rfl

/-- Helper: the grayscale conversion replicates the luminance byte into R, G
and B and forces alpha 255, for every 1-byte pixel. -/
theorem chunks4_gray : ∀ l : List Nat,
    chunks4 (grayToRgbaBytes l) = l.map (fun g => [g, g, g, 255])
  | g :: rest => by
    simp only [grayToRgbaBytes, chunks4, List.map_cons]
    exact congrArg _ (chunks4_gray rest)
  | [] => rfl

/-- C7 (confirmed): decode copies truecolor+alpha directly; forces alpha 255
on every truecolor pixel; replicates luminance into R, G and B copying alpha
for grayscale+alpha; replicates luminance forcing alpha 255 for grayscale;
and fails with the unsupported-format error on the remaining (indexed) input
format. -/
theorem c7_confirmed :
    (∀ png : PngData, png.colorType = PngColorType.rgba →
      decode_png_to_rgba png = Except.ok (png.data, png.width, png.height)) ∧
    (∀ png : PngData, png.colorType = PngColorType.rgb →
      decode_png_to_rgba png = Except.ok (rgbToRgbaBytes png.data, png.width, png.height)) ∧
    (∀ png : PngData, png.colorType = PngColorType.grayscaleAlpha →
      decode_png_to_rgba png = Except.ok (gaToRgbaBytes png.data, png.width, png.height)) ∧
    (∀ png : PngData, png.colorType = PngColorType.grayscale →
      decode_png_to_rgba png = Except.ok (grayToRgbaBytes png.data, png.width, png.height)) ∧
    (∀ png : PngData, png.colorType = PngColorType.indexed →
      decode_png_to_rgba png = Except.error "Unsupported PNG color type") ∧
    (∀ l : List Nat, chunks4 (rgbToRgbaBytes l) =
      (triples l).map (fun t => [t.1, t.2.1, t.2.2, 255])) ∧
    (∀ l : List Nat, chunks4 (gaToRgbaBytes l) =
      (pairs l).map (fun q => [q.1, q.1, q.1, q.2])) ∧
    (∀ l : List Nat, chunks4 (grayToRgbaBytes l) = l.map (fun g => [g, g, g, 255])) := by
  refine ⟨?_, ?_, ?_, ?_, ?_, chunks4_rgb, chunks4_ga, chunks4_gray⟩ <;>
    (intro png hct; simp [decode_png_to_rgba, hct])

/-- C7 (witness): the truecolor branch of the confirmed theorem at a concrete
one-pixel image, with the forced alpha byte visible in the output. -/
theorem c7_witness :
    decode_png_to_rgba
      { colorType := PngColorType.rgb, width := 1, height := 1,
        data := [7, 8, 9], paletteRgb := [], trns := [] } =
      Except.ok ([7, 8, 9, 255], 1, 1) :=
  c7_confirmed.2.1
    { colorType := PngColorType.rgb, width := 1, height := 1,
      data := [7, 8, 9], paletteRgb := [], trns := [] } rfl

/-- C8 (confirmed): with dithering level 0 the remap path is a pure function
of the pixel bytes, dimensions and palette, so two calls on byte-identical
inputs return identical results. -/
theorem c8_confirmed (palette : List Pixel) (d1 d2 : List Nat) (w h : Nat)
    (hd : d1 = d2) :
    get_palette_indices palette d1 w h = get_palette_indices palette d2 w h := by
  rw [hd]

/-- C8 (witness): the confirmed theorem at two byte-identical concrete pixel
buffers. -/
theorem c8_witness :
    get_palette_indices [⟨10, 20, 30, 40⟩] [1, 2, 3, 4] 1 1 =
      get_palette_indices [⟨10, 20, 30, 40⟩] [1, 2, 3, 4] 1 1 :=
  c8_confirmed [⟨10, 20, 30, 40⟩] [1, 2, 3, 4] [1, 2, 3, 4] 1 1 rfl

/-- C9 (confirmed): the exposed quality score is the internal 0 to 100 score
divided by 100 (with a missing score defaulted to 0), so it lies in the
interval from 0 to 1. -/
theorem c9_confirmed (q : Option Nat) (hq : ∀ v ∈ q, v ≤ 100) :
    get_quantization_quality q = (q.getD 0 : Rat) / 100 ∧
    0 ≤ get_quantization_quality q ∧ get_quantization_quality q ≤ 1 := by
  have hle : q.getD 0 ≤ 100 := by
    cases q with
    | none => simp
    | some v => exact hq v rfl
  refine ⟨rfl, ?_, ?_⟩
  · unfold get_quantization_quality
    positivity
  · unfold get_quantization_quality
    rw [div_le_one (by norm_num)]
    exact_mod_cast hle

/-- C9 (witness): the confirmed theorem at the concrete internal score 50,
exposed as one half. -/
theorem c9_witness :
    get_quantization_quality (some 50) = ((some 50 : Option Nat).getD 0 : Rat) / 100 ∧
    0 ≤ get_quantization_quality (some 50) ∧ get_quantization_quality (some 50) ≤ 1 :=
  c9_confirmed (some 50) (by
    intro v hv
    rw [Option.mem_def] at hv
    injection hv with hv50
    omega)
